import Mathlib

/-!
Shallow embedding of `scripts/data-extraction/extract_poe2_data.py`
(the single script of the poe-2-toolkit repository).

The script orchestrates an external library (PyPoE): it locates a game
installation, opens a GGPK archive, extracts configured `.dat64` tables,
normalizes decoded rows to JSON-serializable dictionaries, writes
per-category and combined JSON files, and falls back to downloading
community JSON snapshots when the primary path is unavailable.

External effects (the PyPoE decoder, the filesystem existence checks, the
registry, HTTP) are modelled as fields of environment records; exceptions
are modelled with `Except`. Python dictionaries keyed by strings are
modelled as association lists with overwrite-on-insert (`dictInsert`),
which matches `d[k] = v` semantics including key order.
-/

namespace PoE2

/-- An exception, as the script distinguishes them: `FileNotFoundError`
(the "missing installation" error that `main` catches specially) versus
every other `Exception`. -/
inductive Exc where
  | fileNotFound
  | other (msg : String)
deriving DecidableEq, Repr

/-- A Python value as it appears in a decoded `.dat64` row, at the level
the script inspects it: a plain string, a number, a `bytes` object, or a
complex object carrying a `__dict__` attribute (whose `str()` is the
string stored in the constructor).  `bytes`, `str` and numbers carry no
`__dict__` in Python, so the four kinds are disjoint, matching the
script's `hasattr(value, '__dict__')` / `isinstance(value, bytes)`
dispatch. -/
inductive PyValue where
  | str (s : String)
  | num (n : Int)
  | bytes (b : List Nat)
  | obj (s : String)
deriving DecidableEq, Repr

/-- `hasattr(value, '__dict__')`: true exactly for complex objects. -/
def PyValue.hasDictAttr : PyValue → Bool
  | .obj _ => true
  | _ => false

/-- `isinstance(value, bytes)`. -/
def PyValue.isBytes : PyValue → Bool
  | .bytes _ => true
  | _ => false

/-- A JSON scalar in the sense of the spec: a string or a number. -/
def PyValue.isScalar : PyValue → Bool
  | .str _ => true
  | .num _ => true
  | _ => false

/-- One lowercase hexadecimal digit, as `bytes.hex` produces. -/
def hexDigit (n : Nat) : Char :=
  if n < 10 then Char.ofNat (48 + n) else Char.ofNat (87 + n)

/-- Two-digit lowercase hex of one byte. -/
def byteHex (b : Nat) : String :=
  String.mk [hexDigit (b / 16 % 16), hexDigit (b % 16)]

/-- `bytes.hex()`: concatenated two-digit hex of each byte. -/
def bytesHex (bs : List Nat) : String :=
  String.join (bs.map byteHex)

/-- `str(value)` for the values the script stringifies (complex objects;
the other cases are given their evident Python rendering and are never
reached by the conversion below). -/
def PyValue.pyStr : PyValue → String
  | .obj s => s
  | .str s => s
  | .num n => toString n
  | .bytes b => bytesHex b

/-- The per-value normalization in `parse_dat_file`:
`if hasattr(value, '__dict__'): value = str(value)
 elif isinstance(value, bytes): value = value.hex()`. -/
def convertValue (v : PyValue) : PyValue :=
  if v.hasDictAttr then .str v.pyStr
  else match v with
    | .bytes b => .str (bytesHex b)
    | _ => v

/-- The characters after the last occurrence of `sep` (the whole input
when `sep` does not occur): computes `Path(s).name` on the `/`-separated
archive paths the script uses. -/
def afterLastSep (sep : Char) : List Char → List Char → List Char
  | [], acc => acc.reverse
  | x :: xs, acc =>
    if x == sep then afterLastSep sep xs []
    else afterLastSep sep xs (x :: acc)

/-- `Path(s).stem`: the final path component with its last extension
removed; a name with no dot, or only a leading dot, is its own stem. -/
def stem (s : String) : String :=
  let name := afterLastSep '/' s.data []
  match name.reverse.dropWhile (fun c => c != '.') with
  | [] => String.mk name
  | _ :: beforeDot =>
    if beforeDot.isEmpty then String.mk name
    else String.mk beforeDot.reverse

/-- A decoded row as the script builds it: column name to value. -/
abbrev Row := List (String × PyValue)

/-- The external world of one extraction run: the GGPK archive contents
(`GGPKFile.__getitem__` + `get_content`, which may raise or yield no
node), the PyPoE `DatFile` row decoder (may raise), the `json.loads`
parser used for the passive tree (may raise), and HTTP GET. -/
structure Env where
  extractGgpk : String → Except Exc (Option (List Nat))
  decodeRows : String → List Nat → Except Exc (List Row)
  jsonParse : List Nat → Except Exc (List Nat)
  httpGet : String → Except Exc (Nat × List Nat)

/-- `PoE2DataExtractor.extract_file`: look the path up in the archive and
return its content, or `None` when there is no node. -/
def extract_file (env : Env) (fp : String) : Except Exc (Option (List Nat)) :=
  env.extractGgpk fp

/-- `PoE2DataExtractor.parse_dat_file`: decode the table named by the
path's stem and normalize every value of every row with `convertValue`. -/
def parse_dat_file (env : Env) (fp : String) (content : List Nat) :
    Except Exc (List Row) :=
  match env.decodeRows (stem fp) content with
  | .error e => .error e
  | .ok raw => .ok (raw.map (fun row => row.map (fun kv => (kv.1, convertValue kv.2))))

/-- The body of one iteration of the loop in `extract_category`, before
the `except` clause: extract the file; `None` content means the table is
missing; otherwise parse it and yield the `(stem, rows)` entry. -/
def processFile (env : Env) (fp : String) : Except Exc (Option (String × List Row)) :=
  match extract_file env fp with
  | .error e => .error e
  | .ok none => .ok none
  | .ok (some content) =>
    match parse_dat_file env fp content with
    | .error e => .error e
    | .ok parsed => .ok (some (stem fp, parsed))

/-- What the script prints for one table: the missing-file `WARNING` or
the caught-exception `ERROR`. -/
inductive LogEvent where
  | warnMissing (fp : String)
  | errorLog (e : Exc)
deriving DecidableEq, Repr

/-- One iteration of `extract_category`'s loop with its `except Exception`
handler applied: an entry to add to the category dictionary, and the log
it prints.  An exception never escapes: it becomes an `errorLog`. -/
def fileStep (env : Env) (fp : String) : Option (String × List Row) × List LogEvent :=
  match processFile env fp with
  | .ok (some entry) => (some entry, [])
  | .ok none => (none, [LogEvent.warnMissing fp])
  | .error e => (none, [LogEvent.errorLog e])

/-- Python `d[k] = v` on a string-keyed dict modelled as an association
list: overwrite in place when the key is present, append otherwise. -/
def dictInsert {α : Type} (d : List (String × α)) (k : String) (v : α) :
    List (String × α) :=
  if d.any (fun p => p.1 == k) then
    d.map (fun p => if p.1 == k then (k, v) else p)
  else d ++ [(k, v)]

/-- Dict lookup (first matching key). -/
def dlookup {α : Type} (d : List (String × α)) (k : String) : Option α :=
  match d with
  | [] => none
  | p :: rest => if p.1 == k then some p.2 else dlookup rest k

/-- The loop of `extract_category`, carrying the category dictionary and
the log printed so far. -/
def extractCategoryFrom (env : Env) (acc : List (String × List Row) × List LogEvent) :
    List String → List (String × List Row) × List LogEvent
  | [] => acc
  | fp :: rest =>
    let st := fileStep env fp
    extractCategoryFrom env
      ((match st.1 with
        | some entry => dictInsert acc.1 entry.1 entry.2
        | none => acc.1),
       acc.2 ++ st.2) rest

/-- `PoE2DataExtractor.extract_category` together with the log it prints. -/
def extract_category_run (env : Env) (files : List String) :
    List (String × List Row) × List LogEvent :=
  extractCategoryFrom env ([], []) files

/-- The dictionary `extract_category` returns. -/
def extract_category (env : Env) (files : List String) : List (String × List Row) :=
  (extract_category_run env files).1

/-- The `items` entry of `EXTRACT_FILES`. -/
def itemsFiles : List String :=
  ["Data/BaseItemTypes.dat64", "Data/UniqueItems.dat64", "Data/ItemClasses.dat64",
   "Data/ItemExperiencePerLevel.dat64", "Data/WeaponTypes.dat64", "Data/ArmourTypes.dat64",
   "Data/ShieldTypes.dat64"]

/-- The `mods` entry of `EXTRACT_FILES`. -/
def modsFiles : List String :=
  ["Data/Mods.dat64", "Data/ModType.dat64", "Data/ModDomains.dat64",
   "Data/ModGenerationType.dat64", "Data/Tags.dat64", "Data/SpawnWeight.dat64",
   "Data/CraftingBenchOptions.dat64"]

/-- The `skills` entry of `EXTRACT_FILES`. -/
def skillsFiles : List String :=
  ["Data/ActiveSkills.dat64", "Data/GrantedEffects.dat64", "Data/GrantedEffectsPerLevel.dat64",
   "Data/GemTags.dat64", "Data/SkillGems.dat64", "Data/SupportGems.dat64",
   "Data/SkillTotemVariations.dat64"]

/-- The `passive` entry of `EXTRACT_FILES`. -/
def passiveFiles : List String :=
  ["Data/PassiveSkills.dat64", "Data/PassiveSkillTrees.dat64",
   "Data/PassiveTreeExpansionJewelSizes.dat64", "Data/PassiveJewelSlots.dat64",
   "Data/AlternatePassiveSkills.dat64"]

/-- The `stats` entry of `EXTRACT_FILES`. -/
def statsFiles : List String :=
  ["Data/Stats.dat64", "Data/StatDescriptions.dat64", "Data/StatInterpolationTypes.dat64"]

/-- The `currency` entry of `EXTRACT_FILES`. -/
def currencyFiles : List String :=
  ["Data/CurrencyItems.dat64", "Data/CurrencyStashTabLayout.dat64", "Data/Essences.dat64",
   "Data/EssenceTypes.dat64"]

/-- The `EXTRACT_FILES` configuration: category name to archive paths,
in the source's order. -/
def EXTRACT_FILES : List (String × List String) :=
  [("items", itemsFiles), ("mods", modsFiles), ("skills", skillsFiles),
   ("passive", passiveFiles), ("stats", statsFiles), ("currency", currencyFiles)]

instance : DecidableEq (List (String × List Row)) := inferInstance

instance : DecidableEq (List (String × List (String × List Row))) := inferInstance

/-- A document written to the output directory: a per-category dict, the
combined all-categories dict, or raw bytes (downloads, passive tree). -/
inductive OutDoc where
  | catDoc (d : List (String × List Row))
  | allDoc (d : List (String × List (String × List Row)))
  | raw (content : List Nat)
deriving DecidableEq, Repr

/-- A filesystem action on the output directory, in program order:
`OUTPUT_DIR.mkdir(parents=True, exist_ok=True)` (idempotent) or writing
one file inside it. -/
inductive FsEvent where
  | mkdirOutput
  | writeFile (name : String) (doc : OutDoc)
deriving DecidableEq, Repr

/-- The loop of `extract_all`: for each category, extract it, store it in
`all_data`, create the output directory, and write the category file. -/
def extractAllLoop (env : Env)
    (acc : List (String × List (String × List Row)) × List FsEvent) :
    List (String × List String) →
      List (String × List (String × List Row)) × List FsEvent
  | [] => acc
  | cf :: rest =>
    let catData := extract_category env cf.2
    extractAllLoop env
      (dictInsert acc.1 cf.1 catData,
       acc.2 ++ [FsEvent.mkdirOutput,
                 FsEvent.writeFile (cf.1 ++ "_data.json") (OutDoc.catDoc catData)])
      rest

/-- `PoE2DataExtractor.extract_all`: the loop over `EXTRACT_FILES`
followed by the write of the combined `poe2_all_data.json`.  Returns the
combined `all_data` dictionary and the filesystem trace. -/
def extract_all_run (env : Env) :
    List (String × List (String × List Row)) × List FsEvent :=
  let st := extractAllLoop env ([], []) EXTRACT_FILES
  (st.1, st.2 ++ [FsEvent.writeFile "poe2_all_data.json" (OutDoc.allDoc st.1)])

/-- The candidate archive locations tried by `extract_passive_tree_json`. -/
def tree_paths : List String :=
  ["Data/PassiveSkillTree.json", "Data/PassiveSkillTree_0_3_0.json",
   "Metadata/PassiveSkillTree.json"]

/-- One iteration of `extract_passive_tree_json`'s loop: extract the
path, `json.loads` it; any exception, or missing content, yields nothing
(the bare `except: continue`). -/
def tryTreePath (env : Env) (p : String) : Option (List Nat) :=
  match extract_file env p with
  | .ok (some content) =>
    match env.jsonParse content with
    | .ok t => some t
    | .error _ => none
  | _ => none

/-- `PoE2DataExtractor.extract_passive_tree_json`: write the first
candidate that extracts and parses, as `passive_tree.json`; its open
creates no directory. -/
def extract_passive_tree_trace (env : Env) : List String → List FsEvent
  | [] => []
  | p :: rest =>
    match tryTreePath env p with
    | some t => [FsEvent.writeFile "passive_tree.json" (OutDoc.raw t)]
    | none => extract_passive_tree_trace env rest

/-- The `sources` dictionary of `download_community_data`. -/
def sources : List (String × String) :=
  [("RePoE", "https://github.com/brather1ng/RePoE/raw/master/data/"),
   ("PyPoE_ExportedData", "https://github.com/OmegaK2/PyPoE/raw/master/exported/"),
   ("poedb", "https://poedb.tw/us/api/")]

/-- The `files_to_download` list: local filename, source name, remote file. -/
def files_to_download : List (String × String × String) :=
  [("base_items.json", "RePoE", "base_items.json"),
   ("uniques.json", "RePoE", "uniques.json"),
   ("gems.json", "RePoE", "gems.json"),
   ("mods.json", "RePoE", "mods.json"),
   ("passive_skills.json", "RePoE", "passive_skills.json")]

/-- `url = sources[source] + remote_file` (every listed source exists). -/
def downloadUrl (f : String × String × String) : String :=
  (dlookup sources f.2.1).getD "" ++ f.2.2

/-- `response.raise_for_status()` raises exactly for 4xx and 5xx codes. -/
def raiseForStatusFails (status : Nat) : Bool :=
  400 ≤ status && status < 600

/-- One iteration of the download loop with its `except` handler: on a
request exception or an error status nothing is written (the output file
is opened only after `raise_for_status`); otherwise the response body is
written to the local filename. -/
def downloadStep (env : Env) (f : String × String × String) : List FsEvent :=
  match env.httpGet (downloadUrl f) with
  | .ok r =>
    if raiseForStatusFails r.1 then []
    else [FsEvent.writeFile f.1 (OutDoc.raw r.2)]
  | .error _ => []

/-- `download_community_data`: create the output directory, then attempt
every file in `files_to_download` in order, failures notwithstanding. -/
def download_community_data (env : Env) : List FsEvent :=
  FsEvent.mkdirOutput :: files_to_download.flatMap (downloadStep env)

/-- The fixed candidate installation directories `POE2_PATHS`, in their
listed order. -/
def POE2_PATHS : List String :=
  ["C:\\Program Files (x86)\\Grinding Gear Games\\Path of Exile 2",
   "C:\\Program Files (x86)\\Steam\\steamapps\\common\\Path of Exile 2",
   "C:\\Program Files\\Grinding Gear Games\\Path of Exile 2"]

/-- `Path(dir) / "Content.ggpk"` (the separator is abstracted to `/`). -/
def contentGgpkPath (dir : String) : String :=
  dir ++ "/Content.ggpk"

/-- The host the script runs on: whether each `Content.ggpk` path exists
(`Path.exists`), whether `sys.platform == "win32"`, and the result of the
registry lookup (`winreg.OpenKey` + `QueryValueEx`, which may raise). -/
structure SysEnv where
  pathExists : String → Bool
  platformWin32 : Bool
  registryInstallPath : Except Exc String

/-- `PoE2DataExtractor.find_poe2_installation`: return the
`Content.ggpk` of the first fixed candidate that has one; only when none
does, and only on win32, consult the registry; `None` when everything
fails (a registry exception is swallowed by `except: pass`). -/
def find_poe2_installation (sys : SysEnv) : Option String :=
  match POE2_PATHS.find? (fun p => sys.pathExists (contentGgpkPath p)) with
  | some p => some (contentGgpkPath p)
  | none =>
    if sys.platformWin32 then
      match sys.registryInstallPath with
      | .ok installPath =>
        if sys.pathExists (contentGgpkPath installPath) then
          some (contentGgpkPath installPath)
        else none
      | .error _ => none
    else none

/-- Python `a or b` on an optional (non-empty) string. -/
def pyOr (a b : Option String) : Option String :=
  match a with
  | some s => some s
  | none => b

/-- `PoE2DataExtractor.__init__`: raise `ImportError` when PyPoE is
absent, otherwise `self.ggpk_path = ggpk_path or self.find_poe2_installation()`
and raise `FileNotFoundError` when that is still empty. -/
def extractorInit (pypoeAvailable : Bool) (ggpkArg : Option String) (sys : SysEnv) :
    Except Exc String :=
  if pypoeAvailable then
    match pyOr ggpkArg (find_poe2_installation sys) with
    | some p => .ok p
    | none => .error .fileNotFound
  else .error (.other "PyPoE is required. Install with: pip install pypoe")

/-- One run of the script's `main` seen from the outside: whether the
module import succeeded, the host environment for installation
discovery, and the exception (if any) raised by the extraction body
(`extract_all` / `extract_passive_tree_json`) after a successful
constructor. -/
structure MainEnv where
  pypoeAvailable : Bool
  sys : SysEnv
  bodyExc : Option Exc

/-- The exception escaping `main`'s `try` block: the constructor's
(called as `PoE2DataExtractor()`, with no `ggpk_path`), else whatever the
extraction body raises. -/
def mainTryOutcome (env : MainEnv) : Option Exc :=
  match extractorInit env.pypoeAvailable none env.sys with
  | .error e => some e
  | .ok _ => env.bodyExc

/-- What a run of `main` ends in. -/
inductive MainAction where
  | downloadFallback
  | extracted
  | errorNoFallback
deriving DecidableEq, Repr

/-- `main`: without PyPoE, fall back immediately; otherwise run the
`try` block, falling back exactly on `FileNotFoundError`, and merely
printing advice on any other exception. -/
def mainRun (env : MainEnv) : MainAction :=
  if env.pypoeAvailable then
    match mainTryOutcome env with
    | none => .extracted
    | some .fileNotFound => .downloadFallback
    | some (.other _) => .errorNoFallback
  else .downloadFallback

/-- The parsed CLI arguments of the `__main__` block. -/
structure Args where
  ggpk : Option String
  community : Bool
  output : String
deriving DecidableEq, Repr

/-- The GGPK path the non-`--community` run opens, if it opens one: the
`__main__` block calls `main()`, and `main` constructs
`PoE2DataExtractor()` passing no `ggpk_path` — `args.ggpk` is never
forwarded — so discovery always runs from the fixed candidates. -/
def runOpenedGgpk (args : Args) (env : MainEnv) : Option String :=
  if args.community then none
  else
    match extractorInit env.pypoeAvailable none env.sys with
    | .ok p => some p
    | .error _ => none

/-- A small concrete environment exercising the definitions: one table
decodes to a row holding each kind of value, one file is absent from the
archive, one file fails to decode, one download succeeds, one has an
error status, the rest hit a connection error. -/
def envTest : Env where
  extractGgpk := fun fp =>
    if fp == "Data/BaseItemTypes.dat64" then .ok (some [0, 1])
    else if fp == "Data/ItemClasses.dat64" then .ok (some [2])
    else .ok none
  decodeRows := fun name _ =>
    if name == "BaseItemTypes" then
      .ok [[("Id", PyValue.str "Iron Ring"), ("DropLevel", PyValue.num 3),
            ("Hash16", PyValue.bytes [171, 205]), ("ModsKey", PyValue.obj "DatRecord")]]
    else .error (.other "unknown specification")
  jsonParse := fun c => .ok c
  httpGet := fun url =>
    if url == downloadUrl ("base_items.json", "RePoE", "base_items.json") then
      .ok (200, [123, 125])
    else if url == downloadUrl ("uniques.json", "RePoE", "uniques.json") then
      .ok (404, [])
    else .error (.other "connection error")

/-- An environment where every archive access, decode, parse and request
fails: the worst-case run. -/
def envAllFail : Env where
  extractGgpk := fun _ => .error (.other "GGPK open failed")
  decodeRows := fun _ _ => .error (.other "decode failed")
  jsonParse := fun _ => .error (.other "invalid json")
  httpGet := fun _ => .error (.other "offline")

/-- Scans a trace left to right and checks that a creation of the output
directory precedes every file write in it; the flag records whether a
`mkdir` has been seen. -/
def mkdirBeforeWrites : Bool → List FsEvent → Bool
  | _, [] => true
  | _, FsEvent.mkdirOutput :: rest => mkdirBeforeWrites true rest
  | seen, FsEvent.writeFile _ _ :: rest => seen && mkdirBeforeWrites seen rest

/-- Whether the trace writes a file of the given name. -/
def writesTo (name : String) (evs : List FsEvent) : Bool :=
  evs.any fun ev =>
    match ev with
    | FsEvent.writeFile n _ => n == name
    | FsEvent.mkdirOutput => false

/-- A host where the first fixed candidate holds a `Content.ggpk` and
the registry is unavailable. -/
def sysFound : SysEnv where
  pathExists := fun p =>
    p == contentGgpkPath "C:\\Program Files (x86)\\Grinding Gear Games\\Path of Exile 2"
  platformWin32 := true
  registryInstallPath := .error (.other "registry unavailable")

/-- A host with no installation anywhere. -/
def sysNotFound : SysEnv where
  pathExists := fun _ => false
  platformWin32 := false
  registryInstallPath := .error (.other "registry unavailable")

/-- A run with PyPoE importable, a discoverable installation, and an
extraction body that raises nothing. -/
def envMainFound : MainEnv where
  pypoeAvailable := true
  sys := sysFound
  bodyExc := none

/-- A run with PyPoE importable but no discoverable installation. -/
def envMainMissing : MainEnv where
  pypoeAvailable := true
  sys := sysNotFound
  bodyExc := none

/-- A CLI invocation passing `--ggpk` without `--community`. -/
def argsWithGgpk : Args where
  ggpk := some "D:/PoE2/Content.ggpk"
  community := false
  output := "./extracted_data"

/-- `convertValue` always yields a JSON scalar. -/
theorem convertValue_isScalar (v : PyValue) : (convertValue v).isScalar = true := by
  cases v <;> simp [convertValue, PyValue.hasDictAttr, PyValue.pyStr, PyValue.isScalar]

/-- The category dictionary built by the loop does not depend on the log
accumulated so far. -/
theorem extractCategoryFrom_fst (env : Env) :
    ∀ (files : List String) (d : List (String × List Row)) (l l' : List LogEvent),
      (extractCategoryFrom env (d, l) files).1 = (extractCategoryFrom env (d, l') files).1 := by
  intro files
  induction files with
  | nil => intro d l l'; rfl
  | cons fp rest ih =>
    intro d l l'
    simp only [extractCategoryFrom]
    exact ih _ _ _

/-- The log built by the loop is the accumulated log followed by the log
of the remaining files. -/
theorem extractCategoryFrom_snd (env : Env) :
    ∀ (files : List String) (d : List (String × List Row)) (l : List LogEvent),
      (extractCategoryFrom env (d, l) files).2 =
        l ++ (extractCategoryFrom env (d, []) files).2 := by
  intro files
  induction files with
  | nil => intro d l; simp [extractCategoryFrom]
  | cons fp rest ih =>
    intro d l
    simp only [extractCategoryFrom]
    rw [ih _ (l ++ (fileStep env fp).2), ih _ ([] ++ (fileStep env fp).2)]
    simp

/-- C5: for every table whose decode succeeds, `parse_dat_file` returns
the decoder's rows with every value normalized by `convertValue`, hence
every value a scalar: `bytes` become their lowercase hex string, values
carrying a `__dict__` become their `str()`, strings and numbers pass
through unchanged; and the entry a successful file contributes is keyed
by the path's stem. -/
theorem parse_dat_file_normalizes :
    ∀ (env : Env) (fp : String) (content : List Nat) (rows : List Row),
      parse_dat_file env fp content = .ok rows →
      (∀ row ∈ rows, ∀ kv ∈ row, (kv.2).isScalar = true) ∧
      (∀ raw, env.decodeRows (stem fp) content = .ok raw →
        rows = raw.map (fun row => row.map (fun kv => (kv.1, convertValue kv.2)))) ∧
      (∀ b, convertValue (PyValue.bytes b) = PyValue.str (bytesHex b)) ∧
      (∀ s, convertValue (PyValue.obj s) = PyValue.str s) ∧
      (∀ s, convertValue (PyValue.str s) = PyValue.str s) ∧
      (∀ n, convertValue (PyValue.num n) = PyValue.num n) ∧
      (∀ entry, processFile env fp = .ok (some entry) → entry.1 = stem fp) := by
  intro env fp content rows h
  cases hd : env.decodeRows (stem fp) content with
  | error e => simp [parse_dat_file, hd] at h
  | ok raw =>
    simp only [parse_dat_file, hd] at h
    injection h with h
    subst h
    refine ⟨?_, ?_, ?_, ?_, ?_, ?_, ?_⟩
    · intro row hrow kv hkv
      rcases List.mem_map.mp hrow with ⟨row0, _, rfl⟩
      rcases List.mem_map.mp hkv with ⟨kv0, _, rfl⟩
      exact convertValue_isScalar kv0.2
    · intro raw' hraw'
      injection hraw' with h2
      rw [h2]
    · intro b; rfl
    · intro s; rfl
    · intro s; rfl
    · intro n; rfl
    · intro entry hpf
      cases hext : extract_file env fp with
      | error e => simp [processFile, hext] at hpf
      | ok c =>
        cases c with
        | none => simp [processFile, hext] at hpf
        | some content' =>
          simp only [processFile, hext] at hpf
          cases hp : parse_dat_file env fp content' with
          | error e => rw [hp] at hpf; simp at hpf
          | ok parsed =>
            rw [hp] at hpf
            simp only [Except.ok.injEq, Option.some.injEq] at hpf
            rw [← hpf]

/-- C5 witnessed on `envTest`: the sample table decodes to one row whose
bytes value became `"abcd"` and whose complex value became its string. -/
theorem parse_dat_file_normalizes_witness :
    (∀ row ∈ [[("Id", PyValue.str "Iron Ring"), ("DropLevel", PyValue.num 3),
               ("Hash16", PyValue.str "abcd"), ("ModsKey", PyValue.str "DatRecord")]],
       ∀ kv ∈ row, (kv.2).isScalar = true) ∧
    (∀ raw, envTest.decodeRows (stem "Data/BaseItemTypes.dat64") [0, 1] = .ok raw →
       [[("Id", PyValue.str "Iron Ring"), ("DropLevel", PyValue.num 3),
         ("Hash16", PyValue.str "abcd"), ("ModsKey", PyValue.str "DatRecord")]] =
         raw.map (fun row => row.map (fun kv => (kv.1, convertValue kv.2)))) ∧
    (∀ b, convertValue (PyValue.bytes b) = PyValue.str (bytesHex b)) ∧
    (∀ s, convertValue (PyValue.obj s) = PyValue.str s) ∧
    (∀ s, convertValue (PyValue.str s) = PyValue.str s) ∧
    (∀ n, convertValue (PyValue.num n) = PyValue.num n) ∧
    (∀ entry, processFile envTest "Data/BaseItemTypes.dat64" = .ok (some entry) →
       entry.1 = stem "Data/BaseItemTypes.dat64") :=
  parse_dat_file_normalizes envTest "Data/BaseItemTypes.dat64" [0, 1]
    [[("Id", PyValue.str "Iron Ring"), ("DropLevel", PyValue.num 3),
      ("Hash16", PyValue.str "abcd"), ("ModsKey", PyValue.str "DatRecord")]] (by rfl)

/-- C6: a missing file (no content) is logged as a warning and its table
is simply omitted, and a per-file exception is logged as an error and
likewise omitted; in both cases `extract_category` returns exactly the
result of processing the remaining files, so nothing escapes the loop. -/
theorem extract_category_handles_missing_and_errors :
    ∀ (env : Env) (fp : String) (rest : List String),
      (extract_file env fp = .ok none →
        extract_category_run env (fp :: rest) =
          (extract_category env rest,
           LogEvent.warnMissing fp :: (extract_category_run env rest).2)) ∧
      (∀ e, processFile env fp = .error e →
        extract_category_run env (fp :: rest) =
          (extract_category env rest,
           LogEvent.errorLog e :: (extract_category_run env rest).2)) := by
  intro env fp rest
  constructor
  · intro hmiss
    have hpf : processFile env fp = .ok none := by
      simp [processFile, hmiss]
    have hstep : fileStep env fp = (none, [LogEvent.warnMissing fp]) := by
      simp [fileStep, hpf]
    show extractCategoryFrom env ([], []) (fp :: rest) = _
    simp only [extractCategoryFrom, hstep]
    refine Prod.ext ?_ ?_
    · exact extractCategoryFrom_fst env rest [] _ []
    · rw [extractCategoryFrom_snd env rest [] ([] ++ [LogEvent.warnMissing fp])]
      simp [extract_category_run]
  · intro e herr
    have hstep : fileStep env fp = (none, [LogEvent.errorLog e]) := by
      simp [fileStep, herr]
    show extractCategoryFrom env ([], []) (fp :: rest) = _
    simp only [extractCategoryFrom, hstep]
    refine Prod.ext ?_ ?_
    · exact extractCategoryFrom_fst env rest [] _ []
    · rw [extractCategoryFrom_snd env rest [] ([] ++ [LogEvent.errorLog e])]
      simp [extract_category_run]

/-- C6 witnessed on `envTest`: a missing archive file yields the warning
and an unchanged dictionary, a decode failure yields the error log. -/
theorem extract_category_handles_missing_and_errors_witness :
    extract_category_run envTest ["Data/UniqueItems.dat64"] =
      (extract_category envTest [],
       LogEvent.warnMissing "Data/UniqueItems.dat64" ::
         (extract_category_run envTest []).2) ∧
    extract_category_run envTest ["Data/ItemClasses.dat64"] =
      (extract_category envTest [],
       LogEvent.errorLog (Exc.other "unknown specification") ::
         (extract_category_run envTest []).2) :=
  ⟨(extract_category_handles_missing_and_errors envTest "Data/UniqueItems.dat64" []).1
     (by rfl),
   (extract_category_handles_missing_and_errors envTest "Data/ItemClasses.dat64" []).2
     (Exc.other "unknown specification") (by rfl)⟩

/-- `extract_all_run` in normal form: six category entries in
configuration order, a directory creation before each category file
write, and the combined write last. -/
theorem extract_all_run_eq (env : Env) :
    extract_all_run env =
      ([("items", extract_category env itemsFiles),
        ("mods", extract_category env modsFiles),
        ("skills", extract_category env skillsFiles),
        ("passive", extract_category env passiveFiles),
        ("stats", extract_category env statsFiles),
        ("currency", extract_category env currencyFiles)],
       [FsEvent.mkdirOutput,
        FsEvent.writeFile "items_data.json" (OutDoc.catDoc (extract_category env itemsFiles)),
        FsEvent.mkdirOutput,
        FsEvent.writeFile "mods_data.json" (OutDoc.catDoc (extract_category env modsFiles)),
        FsEvent.mkdirOutput,
        FsEvent.writeFile "skills_data.json" (OutDoc.catDoc (extract_category env skillsFiles)),
        FsEvent.mkdirOutput,
        FsEvent.writeFile "passive_data.json" (OutDoc.catDoc (extract_category env passiveFiles)),
        FsEvent.mkdirOutput,
        FsEvent.writeFile "stats_data.json" (OutDoc.catDoc (extract_category env statsFiles)),
        FsEvent.mkdirOutput,
        FsEvent.writeFile "currency_data.json" (OutDoc.catDoc (extract_category env currencyFiles)),
        FsEvent.writeFile "poe2_all_data.json"
          (OutDoc.allDoc
            [("items", extract_category env itemsFiles),
             ("mods", extract_category env modsFiles),
             ("skills", extract_category env skillsFiles),
             ("passive", extract_category env passiveFiles),
             ("stats", extract_category env statsFiles),
             ("currency", extract_category env currencyFiles)])]) := rfl

/-- C3: in every run of `extract_all`, the combined `poe2_all_data.json`
holds, at each configured category name, exactly the dictionary written
to that category's own per-category data file, and its key set is
exactly the configured category names — no other entries. -/
theorem extract_all_combined_is_union :
    ∀ (env : Env) (c : String) (files : List String),
      (c, files) ∈ EXTRACT_FILES →
      dlookup (extract_all_run env).1 c = some (extract_category env files) ∧
      FsEvent.writeFile (c ++ "_data.json") (OutDoc.catDoc (extract_category env files))
        ∈ (extract_all_run env).2 ∧
      FsEvent.writeFile "poe2_all_data.json" (OutDoc.allDoc (extract_all_run env).1)
        ∈ (extract_all_run env).2 ∧
      ((extract_all_run env).1).map Prod.fst = EXTRACT_FILES.map Prod.fst := by
  intro env c files h
  simp only [EXTRACT_FILES, List.mem_cons, List.not_mem_nil, or_false, Prod.mk.injEq] at h
  rcases h with ⟨rfl, rfl⟩ | ⟨rfl, rfl⟩ | ⟨rfl, rfl⟩ | ⟨rfl, rfl⟩ | ⟨rfl, rfl⟩ | ⟨rfl, rfl⟩ <;>
    rw [extract_all_run_eq env] <;>
    refine ⟨rfl, by simp, by simp, rfl⟩

/-- C3 witnessed at the `items` category of the sample environment. -/
theorem extract_all_combined_is_union_witness :
    dlookup (extract_all_run envTest).1 "items" =
      some (extract_category envTest itemsFiles) ∧
    FsEvent.writeFile ("items" ++ "_data.json")
        (OutDoc.catDoc (extract_category envTest itemsFiles)) ∈ (extract_all_run envTest).2 ∧
    FsEvent.writeFile "poe2_all_data.json" (OutDoc.allDoc (extract_all_run envTest).1)
      ∈ (extract_all_run envTest).2 ∧
    ((extract_all_run envTest).1).map Prod.fst = EXTRACT_FILES.map Prod.fst :=
  extract_all_combined_is_union envTest "items" itemsFiles (by simp [EXTRACT_FILES])

/-- C4: every configured category's file is written whatever the
environment does — in particular when tables fail — because a failing
table is skipped inside `extract_category` and the remaining tables and
categories proceed: a file whose processing raises contributes nothing
and the rest of the list yields the same dictionary. -/
theorem extract_category_failures_skipped :
    ∀ (env : Env) (c : String) (files : List String),
      ((c, files) ∈ EXTRACT_FILES →
        FsEvent.writeFile (c ++ "_data.json") (OutDoc.catDoc (extract_category env files))
          ∈ (extract_all_run env).2) ∧
      (∀ fp rest e, processFile env fp = .error e →
        extract_category env (fp :: rest) = extract_category env rest) := by
  intro env c files
  constructor
  · intro h
    simp only [EXTRACT_FILES, List.mem_cons, List.not_mem_nil, or_false, Prod.mk.injEq] at h
    rcases h with ⟨rfl, rfl⟩ | ⟨rfl, rfl⟩ | ⟨rfl, rfl⟩ | ⟨rfl, rfl⟩ | ⟨rfl, rfl⟩ | ⟨rfl, rfl⟩ <;>
      rw [extract_all_run_eq env] <;> simp
  · intro fp rest e herr
    have hstep : fileStep env fp = (none, [LogEvent.errorLog e]) := by
      simp [fileStep, herr]
    show (extractCategoryFrom env ([], []) (fp :: rest)).1 = _
    simp only [extractCategoryFrom, hstep]
    exact extractCategoryFrom_fst env rest [] _ []

/-- C4 witnessed on the environment where everything fails: the `items`
file is still written (with an empty dictionary) and a failing head
table leaves the rest's result unchanged. -/
theorem extract_category_failures_skipped_witness :
    FsEvent.writeFile ("items" ++ "_data.json")
        (OutDoc.catDoc (extract_category envAllFail itemsFiles))
      ∈ (extract_all_run envAllFail).2 ∧
    extract_category envAllFail ("Data/Stats.dat64" :: ["Data/StatDescriptions.dat64"]) =
      extract_category envAllFail ["Data/StatDescriptions.dat64"] :=
  ⟨(extract_category_failures_skipped envAllFail "items" itemsFiles).1
     (by simp [EXTRACT_FILES]),
   (extract_category_failures_skipped envAllFail "items" itemsFiles).2
     "Data/Stats.dat64" ["Data/StatDescriptions.dat64"]
     (Exc.other "GGPK open failed") (by rfl)⟩

/-- C9: the combined document's top-level keys are exactly the six
configured category names, for every environment; and in the run where
every single table fails, each category key is still present, mapped to
an empty dictionary. -/
theorem extract_all_keys_exact :
    (∀ env : Env,
      ((extract_all_run env).1).map Prod.fst =
        ["items", "mods", "skills", "passive", "stats", "currency"]) ∧
    (extract_all_run envAllFail).1 =
      [("items", []), ("mods", []), ("skills", []),
       ("passive", []), ("stats", []), ("currency", [])] := by
  constructor
  · intro env
    rw [extract_all_run_eq env]
    rfl
  · rfl

/-- Once the output directory has been created, any remaining trace is
acceptable. -/
theorem mkdirBeforeWrites_of_seen : ∀ l : List FsEvent, mkdirBeforeWrites true l = true := by
  intro l
  induction l with
  | nil => rfl
  | cons ev rest ih => cases ev <;> simp [mkdirBeforeWrites, ih]

/-- C7: in every run, the output directory is created before any file is
written into it — in the `extract_all` trace, in the community-download
trace, and in the full GGPK flow where the passive-tree write follows
`extract_all`. -/
theorem output_dir_created_before_writes :
    ∀ env : Env,
      mkdirBeforeWrites false ((extract_all_run env).2) = true ∧
      mkdirBeforeWrites false (download_community_data env) = true ∧
      mkdirBeforeWrites false
        ((extract_all_run env).2 ++ extract_passive_tree_trace env tree_paths) = true := by
  intro env
  refine ⟨?_, ?_, ?_⟩
  · rw [extract_all_run_eq env]
    rfl
  · show mkdirBeforeWrites true (files_to_download.flatMap (downloadStep env)) = true
    exact mkdirBeforeWrites_of_seen _
  · rw [extract_all_run_eq env]
    show mkdirBeforeWrites true (extract_passive_tree_trace env tree_paths) = true
    exact mkdirBeforeWrites_of_seen _

/-- C8: installation discovery is the first-match scan of the three
fixed candidates in their listed order; the registry is consulted only
when all three miss and only on win32, and every failure yields `none`. -/
theorem find_poe2_installation_first_match :
    ∀ sys : SysEnv,
      find_poe2_installation sys =
        (if sys.pathExists
              (contentGgpkPath "C:\\Program Files (x86)\\Grinding Gear Games\\Path of Exile 2") then
           some (contentGgpkPath "C:\\Program Files (x86)\\Grinding Gear Games\\Path of Exile 2")
         else if sys.pathExists
              (contentGgpkPath "C:\\Program Files (x86)\\Steam\\steamapps\\common\\Path of Exile 2") then
           some (contentGgpkPath "C:\\Program Files (x86)\\Steam\\steamapps\\common\\Path of Exile 2")
         else if sys.pathExists
              (contentGgpkPath "C:\\Program Files\\Grinding Gear Games\\Path of Exile 2") then
           some (contentGgpkPath "C:\\Program Files\\Grinding Gear Games\\Path of Exile 2")
         else if sys.platformWin32 then
           match sys.registryInstallPath with
           | .ok installPath =>
             if sys.pathExists (contentGgpkPath installPath) then
               some (contentGgpkPath installPath)
             else none
           | .error _ => none
         else none) := by
  intro sys
  cases h1 : sys.pathExists
      (contentGgpkPath "C:\\Program Files (x86)\\Grinding Gear Games\\Path of Exile 2") <;>
  cases h2 : sys.pathExists
      (contentGgpkPath "C:\\Program Files (x86)\\Steam\\steamapps\\common\\Path of Exile 2") <;>
  cases h3 : sys.pathExists
      (contentGgpkPath "C:\\Program Files\\Grinding Gear Games\\Path of Exile 2") <;>
  simp [find_poe2_installation, POE2_PATHS, List.find?, h1, h2, h3]

/-- C1: `download_community_data` is invoked by `main` exactly when
PyPoE is not importable or the `try` block raises `FileNotFoundError`;
and, with PyPoE importable, that exception arises exactly when discovery
finds no installation (the constructor's raise) or the extraction body
itself raises it. -/
theorem main_fallback_exactly_when :
    ∀ env : MainEnv,
      (mainRun env = MainAction.downloadFallback ↔
        (env.pypoeAvailable = false ∨
          (env.pypoeAvailable = true ∧ mainTryOutcome env = some Exc.fileNotFound))) ∧
      (env.pypoeAvailable = true →
        (mainTryOutcome env = some Exc.fileNotFound ↔
          (find_poe2_installation env.sys = none ∨ env.bodyExc = some Exc.fileNotFound))) := by
  intro env
  constructor
  · cases ha : env.pypoeAvailable with
    | false => simp [mainRun, ha]
    | true =>
      cases ho : mainTryOutcome env with
      | none => simp [mainRun, ha, ho]
      | some e => cases e <;> simp [mainRun, ha, ho]
  · intro ha
    cases hf : find_poe2_installation env.sys with
    | none => simp [mainTryOutcome, extractorInit, pyOr, ha, hf]
    | some p => simp [mainTryOutcome, extractorInit, pyOr, ha, hf]

/-- C1 witnessed on a run where PyPoE imports but no installation is
found: the constructor raises `FileNotFoundError` and `main` falls back. -/
theorem main_fallback_exactly_when_witness :
    (mainRun envMainMissing = MainAction.downloadFallback ↔
      (envMainMissing.pypoeAvailable = false ∨
        (envMainMissing.pypoeAvailable = true ∧
          mainTryOutcome envMainMissing = some Exc.fileNotFound))) ∧
    (mainTryOutcome envMainMissing = some Exc.fileNotFound ↔
      (find_poe2_installation envMainMissing.sys = none ∨
        envMainMissing.bodyExc = some Exc.fileNotFound)) :=
  ⟨(main_fallback_exactly_when envMainMissing).1,
   (main_fallback_exactly_when envMainMissing).2 rfl⟩

/-- C2 refuted: invoked as `--ggpk D:/PoE2/Content.ggpk` without
`--community`, on a host whose first fixed candidate holds an archive,
the run opens the auto-discovered path, not the given one — `__main__`
dispatches to `main()`, which constructs `PoE2DataExtractor()` without
forwarding `args.ggpk`. -/
theorem ggpk_flag_ignored :
    argsWithGgpk.community = false ∧
    argsWithGgpk.ggpk = some "D:/PoE2/Content.ggpk" ∧
    runOpenedGgpk argsWithGgpk envMainFound =
      some (contentGgpkPath
        "C:\\Program Files (x86)\\Grinding Gear Games\\Path of Exile 2") ∧
    runOpenedGgpk argsWithGgpk envMainFound ≠ argsWithGgpk.ggpk := by
  refine ⟨rfl, rfl, rfl, ?_⟩
  decide

/-- A request exception suppresses the write. -/
theorem downloadStep_of_error (env : Env) (g : String × String × String) (e : Exc)
    (h : env.httpGet (downloadUrl g) = .error e) : downloadStep env g = [] := by
  simp [downloadStep, h]

/-- An error status fails `raise_for_status` before the file is opened,
so nothing is written. -/
theorem downloadStep_of_badStatus (env : Env) (g : String × String × String)
    (st : Nat) (body : List Nat) (h : env.httpGet (downloadUrl g) = .ok (st, body))
    (hs : raiseForStatusFails st = true) : downloadStep env g = [] := by
  simp [downloadStep, h, hs]

/-- A successful response is written to the file named in the entry. -/
theorem downloadStep_of_ok (env : Env) (g : String × String × String)
    (st : Nat) (body : List Nat) (h : env.httpGet (downloadUrl g) = .ok (st, body))
    (hs : raiseForStatusFails st = false) :
    downloadStep env g = [FsEvent.writeFile g.1 (OutDoc.raw body)] := by
  simp [downloadStep, h, hs]

/-- One download attempt never writes a file with another entry's name. -/
theorem writesTo_downloadStep_ne (env : Env) (g : String × String × String)
    (n : String) (h : ¬ g.1 = n) : writesTo n (downloadStep env g) = false := by
  cases hg : env.httpGet (downloadUrl g) with
  | error e => simp [downloadStep, hg, writesTo]
  | ok r =>
    cases hr : raiseForStatusFails r.1 <;> simp [downloadStep, hg, hr, writesTo, h]

/-- `writesTo` distributes over trace concatenation. -/
theorem writesTo_append (n : String) (a b : List FsEvent) :
    writesTo n (a ++ b) = (writesTo n a || writesTo n b) := by
  simp [writesTo]

/-- The empty trace writes nothing. -/
theorem writesTo_nil (n : String) : writesTo n ([] : List FsEvent) = false := rfl

/-- A `mkdir` is not a write. -/
theorem writesTo_cons_mkdir (n : String) (l : List FsEvent) :
    writesTo n (FsEvent.mkdirOutput :: l) = writesTo n l := by
  simp [writesTo]

/-- A trace writing exactly the named file is detected. -/
theorem writesTo_singleton_self (n : String) (d : OutDoc) :
    writesTo n [FsEvent.writeFile n d] = true := by
  simp [writesTo]

/-- A trace beginning with a write of the named file is detected. -/
theorem writesTo_cons_self (n : String) (d : OutDoc) (l : List FsEvent) :
    writesTo n (FsEvent.writeFile n d :: l) = true := by
  simp [writesTo]

/-- The community-download trace in normal form: the directory creation
followed by the five attempts in list order. -/
theorem download_trace (env : Env) :
    download_community_data env =
      FsEvent.mkdirOutput ::
        (downloadStep env ("base_items.json", "RePoE", "base_items.json") ++
         (downloadStep env ("uniques.json", "RePoE", "uniques.json") ++
          (downloadStep env ("gems.json", "RePoE", "gems.json") ++
           (downloadStep env ("mods.json", "RePoE", "mods.json") ++
            (downloadStep env ("passive_skills.json", "RePoE", "passive_skills.json") ++
             []))))) := rfl

/-- C10: for each entry of the download list, a request exception or an
error status (checked by `raise_for_status` before the output file is
opened) leaves that entry's file unwritten in the whole run, while a
successful response gets written — each attempt's outcome is independent
of the failures of the others, so failures stop nothing. -/
theorem download_failure_leaves_file_unwritten :
    ∀ (env : Env) (f : String × String × String), f ∈ files_to_download →
      (∀ e, env.httpGet (downloadUrl f) = .error e →
        writesTo f.1 (download_community_data env) = false) ∧
      (∀ st body, env.httpGet (downloadUrl f) = .ok (st, body) →
        raiseForStatusFails st = true →
        writesTo f.1 (download_community_data env) = false) ∧
      (∀ st body, env.httpGet (downloadUrl f) = .ok (st, body) →
        raiseForStatusFails st = false →
        writesTo f.1 (download_community_data env) = true) := by
  intro env f hf
  simp only [files_to_download, List.mem_cons, List.not_mem_nil, or_false] at hf
  rcases hf with rfl | rfl | rfl | rfl | rfl <;>
    refine ⟨fun e he => ?_, fun st body hok hs => ?_, fun st body hok hs => ?_⟩ <;>
    first
    | simp [download_trace, writesTo_cons_mkdir, writesTo_append, writesTo_nil,
            downloadStep_of_error _ _ _ he, writesTo_downloadStep_ne]
    | simp [download_trace, writesTo_cons_mkdir, writesTo_append, writesTo_nil,
            downloadStep_of_badStatus _ _ _ _ hok hs, writesTo_downloadStep_ne]
    | simp [download_trace, writesTo_cons_mkdir, writesTo_append, writesTo_nil,
            downloadStep_of_ok _ _ _ _ hok hs, writesTo_downloadStep_ne,
            writesTo_singleton_self, writesTo_cons_self]

/-- C10 witnessed on `envTest`: the connection-error file and the
404 file stay unwritten while the 200 file is written. -/
theorem download_failure_leaves_file_unwritten_witness :
    writesTo "gems.json" (download_community_data envTest) = false ∧
    writesTo "uniques.json" (download_community_data envTest) = false ∧
    writesTo "base_items.json" (download_community_data envTest) = true :=
  ⟨(download_failure_leaves_file_unwritten envTest
      ("gems.json", "RePoE", "gems.json") (by simp [files_to_download])).1
      (Exc.other "connection error") (by rfl),
   (download_failure_leaves_file_unwritten envTest
      ("uniques.json", "RePoE", "uniques.json") (by simp [files_to_download])).2.1
      404 [] (by rfl) (by decide),
   (download_failure_leaves_file_unwritten envTest
      ("base_items.json", "RePoE", "base_items.json") (by simp [files_to_download])).2.2
      200 [123, 125] (by rfl) (by decide)⟩

end PoE2
